import Mathlib

/-!
Shallow embedding of the HTML-table extraction and numeric-cleaning pipeline
of src/app.py (function scrape_companies_data, plus the minimum-revenue filter
of main). A document is abstracted as the list of its tables; a table carries
the flag of whether its class attribute matches wikitable sortable, and its
list of tr rows, each row a list of cells tagged th or td with a text content.
-/

namespace WikiScrape

/-- Characters of the regular-expression whitespace class and of Python string
strip, restricted to ASCII: space, tab, newline, carriage return, vertical tab,
form feed. -/
def isPySpace (c : Char) : Bool :=
  c == ' ' || c == '\t' || c == '\n' || c == '\r' || c == '\x0b' || c == '\x0c'

/-- Python str.strip on a character list: drop leading and trailing whitespace.
Models get_text with strip=True on a cell holding a single text node
(src/app.py lines 62 and 73). -/
def pyStripList (l : List Char) : List Char :=
  ((l.dropWhile isPySpace).reverse.dropWhile isPySpace).reverse

/-- Python str.strip on a string. -/
def pyStrip (s : String) : String :=
  ⟨pyStripList s.data⟩

/-- Auxiliary scan replacing every run of whitespace by a single space; the
Bool records whether the previous character was whitespace. -/
def collapseWSAux : Bool → List Char → List Char
  | _, [] => []
  | prev, c :: cs =>
    if isPySpace c then
      if prev then collapseWSAux true cs else ' ' :: collapseWSAux true cs
    else c :: collapseWSAux false cs

/-- re.sub replacing each maximal run of whitespace characters by one space
(src/app.py lines 64 and 75). -/
def collapseWS (s : String) : String :=
  ⟨collapseWSAux false s.data⟩

/-- Auxiliary scan for re.sub removing citation markers: an opening bracket
followed by one or more digits and a closing bracket is dropped; the Nat is
fuel, always called with at least the length of the list. -/
def stripCitationsAux : Nat → List Char → List Char
  | 0, l => l
  | _ + 1, [] => []
  | n + 1, c :: cs =>
    if c = '[' then
      match cs.takeWhile Char.isDigit, cs.dropWhile Char.isDigit with
      | [], _ => c :: stripCitationsAux n cs
      | _ :: _, ']' :: rest => stripCitationsAux n rest
      | _ :: _, _ => c :: stripCitationsAux n cs
    else c :: stripCitationsAux n cs

/-- re.sub removing every citation marker of the form bracket, digits, bracket
(src/app.py line 77). -/
def stripCitations (s : String) : String :=
  ⟨stripCitationsAux s.data.length s.data⟩

/-- Auxiliary scan for Python str.replace with a nonempty pattern: each
occurrence of pat, scanning left to right, is replaced by rep; the Nat is
fuel, always called with at least the length of the list. -/
def replaceList (pat rep : List Char) : Nat → List Char → List Char
  | 0, l => l
  | _ + 1, [] => []
  | n + 1, c :: cs =>
    if pat.isPrefixOf (c :: cs) then
      rep ++ replaceList pat rep n (List.drop pat.length (c :: cs))
    else c :: replaceList pat rep n cs

/-- Python str.replace of one substring by another (src/app.py line 65). -/
def replaceStr (pat rep s : String) : String :=
  ⟨replaceList pat.data rep.data s.data.length s.data⟩

/-- Python substring containment: pat in l. -/
def listContainsSub (pat : List Char) : List Char → Bool
  | [] => pat.isEmpty
  | c :: cs => pat.isPrefixOf (c :: cs) || listContainsSub pat cs

/-- Python substring containment on strings: pat in s. -/
def strContainsSub (s pat : String) : Bool :=
  listContainsSub pat.data s.data

/-- A table cell: tagged th (header cell) or td, with its text content. -/
structure TCell where
  isTh : Bool
  text : String
deriving DecidableEq

/-- A table: whether its class attribute matches wikitable sortable, and its
rows, each a list of cells. -/
structure HTable where
  isWikitableSortable : Bool
  trs : List (List TCell)
deriving DecidableEq

/-- A parsed document, abstracted as the list of its tables in document
order. -/
abbrev Document := List HTable

/-- A cell value after cleaning: free text, a number, or the missing
marker (pandas NaN). -/
inductive CellValue where
  | vstr (s : String)
  | vnum (q : ℚ)
  | missing
deriving DecidableEq

/-- The record set: column names in order, and rows of values, each row
positionally keyed by the headers. Models the pandas DataFrame built at
src/app.py line 84. -/
structure DataFrame where
  headers : List String
  rows : List (List CellValue)
deriving DecidableEq

/-- The error outcomes of the pipeline: the expected table is absent from the
document, or some other exception was caught by the top-level handler. -/
inductive ScrapeError where
  | NotFoundError
  | OtherError (msg : String)
deriving DecidableEq

/-- Cleaning applied to a header cell text (src/app.py lines 62 to 65):
get_text with strip, whitespace-run collapse, and the replace of the literal
text (USD millions) by itself, written exactly so in the source. -/
def processHeaderText (s : String) : String :=
  replaceStr "(USD millions)" "(USD millions)" (collapseWS (pyStrip s))

/-- Cleaning applied to a data cell text (src/app.py lines 73 to 77):
get_text with strip, whitespace-run collapse, and removal of citation
markers. -/
def processCellText (s : String) : String :=
  stripCitations (collapseWS (pyStrip s))

/-- Header extraction (src/app.py lines 59 to 66): the th cells of the header
row, in order, each cleaned. -/
def extractHeaders (headerRow : List TCell) : List String :=
  (headerRow.filter (fun c => c.isTh)).map (fun c => processHeaderText c.text)

/-- Row extraction (src/app.py lines 71 to 78): every cell of the tr, td or
th alike, cleaned. -/
def extractRow (tr : List TCell) : List String :=
  tr.map (fun c => processCellText c.text)

/-- Data-row extraction with the completeness check (src/app.py lines 69 to
81): a cleaned row is kept exactly when its cell count equals the header
count. -/
def extractRows (headers : List String) (trs : List (List TCell)) : List (List String) :=
  (trs.map extractRow).filter (fun r => r.length == headers.length)

/-- Python str.lower, per character. -/
def lowerStr (s : String) : String :=
  ⟨s.data.map Char.toLower⟩

/-- Column-kind test of src/app.py line 88: the lower-cased header contains
revenue or usd. -/
def isRevenueCol (col : String) : Bool :=
  strContainsSub (lowerStr col) "revenue" || strContainsSub (lowerStr col) "usd"

/-- Column-kind test of src/app.py line 98: the lower-cased header contains
employee. -/
def isEmployeeCol (col : String) : Bool :=
  strContainsSub (lowerStr col) "employee"

/-- First match of the revenue pattern, digits then an optional dot then
digits (src/app.py line 95): the scan finds the first digit, takes the
maximal digit run, then a dot with the following maximal digit run when
present. -/
def extractRevenueMatch : List Char → Option (List Char)
  | [] => none
  | c :: cs =>
    if c.isDigit then
      match (c :: cs).dropWhile Char.isDigit with
      | '.' :: rest =>
        some ((c :: cs).takeWhile Char.isDigit ++ '.' :: rest.takeWhile Char.isDigit)
      | _ => some ((c :: cs).takeWhile Char.isDigit)
    else extractRevenueMatch cs

/-- First match of the digits-only pattern (src/app.py line 104): the maximal
digit run starting at the first digit. -/
def extractDigitsMatch : List Char → Option (List Char)
  | [] => none
  | c :: cs =>
    if c.isDigit then some ((c :: cs).takeWhile Char.isDigit)
    else extractDigitsMatch cs

/-- Value of a digit run read in base ten. -/
def digitsToNat (l : List Char) : Nat :=
  l.foldl (fun n c => 10 * n + (c.toNat - 48)) 0

/-- pandas to_numeric with coerce on the strings the extraction step
produces: digits with at most one dot parse to a rational, anything else
becomes the missing marker (src/app.py lines 96 and 105). -/
def toNumeric (l : List Char) : Option ℚ :=
  match l.dropWhile Char.isDigit with
  | [] => if l.isEmpty then none else some (digitsToNat l)
  | '.' :: rest =>
    if rest.all Char.isDigit then
      if l.takeWhile Char.isDigit = [] ∧ rest = [] then none
      else
        some ((digitsToNat (l.takeWhile Char.isDigit) : ℚ)
          + (digitsToNat rest : ℚ) / (10 : ℚ) ^ rest.length)
    else none
  | _ => none

/-- Shared tail of both numeric columns (src/app.py lines 95 to 96 and 104
to 105): a failed extraction stays missing, an extracted string goes through
to_numeric, itself falling back to missing. -/
def parseExtracted (o : Option (List Char)) : CellValue :=
  match o with
  | none => CellValue.missing
  | some m =>
    match toNumeric m with
    | none => CellValue.missing
    | some q => CellValue.vnum q

/-- Revenue-column cell cleaning (src/app.py lines 90 to 96): remove every
comma, then every dollar sign, then every space, extract the first numeric
substring, parse it; no match or no parse yields the missing marker. -/
def cleanRevenue (s : String) : CellValue :=
  parseExtracted (extractRevenueMatch
    (((s.data.filter (fun c => !(c == ','))).filter
      (fun c => !(c == '$'))).filter (fun c => !(c == ' '))))

/-- Employee-column cell cleaning (src/app.py lines 100 to 105): remove every
comma, then every space, extract the first digit run, parse it; no match or
no parse yields the missing marker. -/
def cleanEmployee (s : String) : CellValue :=
  parseExtracted (extractDigitsMatch
    ((s.data.filter (fun c => !(c == ','))).filter (fun c => !(c == ' '))))

/-- Per-cell coercion as dispatched by the column loop of src/app.py lines
87 to 105: the revenue rule when the header matches revenue or usd, else the
employee rule when it matches employee, else the cell stays text. -/
def coerceCell (col : String) (s : String) : CellValue :=
  if isRevenueCol col then cleanRevenue s
  else if isEmployeeCol col then cleanEmployee s
  else CellValue.vstr s

/-- Coercion of one row: each cell coerced by the rule of its column. -/
def coerceRow (headers : List String) (row : List String) : List CellValue :=
  List.zipWith coerceCell headers row

/-- Tables whose class attribute matches wikitable sortable, in document
order (src/app.py line 51). -/
def matchingTables (doc : Document) : List HTable :=
  doc.filter (fun t => t.isWikitableSortable)

/-- The extraction pipeline of src/app.py lines 35 to 107, from the parsed
document on: locate the first wikitable sortable table (NotFoundError when
none), read the headers from the first tr, extract and filter the data rows,
coerce the numeric columns. A table without any tr makes header_row None in
the source and the attribute access raise, caught by the top-level handler. -/
def scrape_companies_data (doc : Document) : Except ScrapeError DataFrame :=
  match matchingTables doc with
  | [] => Except.error ScrapeError.NotFoundError
  | t :: _ =>
    match t.trs with
    | [] => Except.error (ScrapeError.OtherError "AttributeError")
    | headerRow :: dataTrs =>
      Except.ok
        { headers := extractHeaders headerRow
          rows := (extractRows (extractHeaders headerRow) dataTrs).map
            (coerceRow (extractHeaders headerRow)) }

/-- The fixed column name the minimum-revenue filter of main uses
(src/app.py line 203). -/
def revenueColName : String := "Revenue (USD millions)"

/-- Whether a row passes the minimum-revenue comparison at column index j:
a number at least the threshold passes; the missing marker, like pandas NaN,
compares false (src/app.py line 204). -/
def rowPassesMin (j : Nat) (minRev : ℚ) (r : List CellValue) : Bool :=
  match r[j]? with
  | some (CellValue.vnum q) => decide (minRev ≤ q)
  | _ => false

/-- The minimum-revenue filter of main (src/app.py lines 203 to 204): when
the revenue column is present, keep the rows whose value there is at least
the threshold. -/
def filterMinRevenue (df : DataFrame) (minRev : ℚ) : DataFrame :=
  match df.headers.findIdx? (fun h => h == revenueColName) with
  | none => df
  | some j => { df with rows := df.rows.filter (rowPassesMin j minRev) }

instance {ε α : Type} [DecidableEq ε] [DecidableEq α] : DecidableEq (Except ε α) := fun a b =>
  match a, b with
  | Except.error e₁, Except.error e₂ =>
    if h : e₁ = e₂ then isTrue (by rw [h]) else
      isFalse (by intro hc; injection hc; contradiction)
  | Except.ok v₁, Except.ok v₂ =>
    if h : v₁ = v₂ then isTrue (by rw [h]) else
      isFalse (by intro hc; injection hc; contradiction)
  | Except.error _, Except.ok _ => isFalse (by intro hc; cases hc)
  | Except.ok _, Except.error _ => isFalse (by intro hc; cases hc)

theorem isPrefixOf_append_drop (l₁ l₂ : List Char) (h : l₁.isPrefixOf l₂ = true) :
    l₁ ++ List.drop l₁.length l₂ = l₂ := by
  induction l₁ generalizing l₂ with
  | nil => simp
  | cons c cs ih =>
    cases l₂ with
    | nil => simp [List.isPrefixOf] at h
    | cons d ds =>
      simp only [List.isPrefixOf, Bool.and_eq_true, beq_iff_eq] at h
      obtain ⟨rfl, h2⟩ := h
      simp only [List.length_cons, List.drop_succ_cons, List.cons_append]
      rw [ih ds h2]

theorem replaceList_self (pat : List Char) : ∀ (n : Nat) (l : List Char),
    replaceList pat pat n l = l := by
  intro n
  induction n with
  | zero => intro l; rfl
  | succ n ih =>
    intro l
    cases l with
    | nil => rfl
    | cons c cs =>
      unfold replaceList
      by_cases hp : pat.isPrefixOf (c :: cs) = true
      · rw [if_pos hp, ih]
        exact isPrefixOf_append_drop pat (c :: cs) hp
      · rw [if_neg hp, ih]

theorem toNumeric_nonneg (l : List Char) (q : ℚ) (h : toNumeric l = some q) : 0 ≤ q := by
  unfold toNumeric at h
  split at h
  · split at h
    · cases h
    · injection h with h
      subst h
      positivity
  · split at h
    · split at h
      · cases h
      · injection h with h
        subst h
        positivity
    · cases h
  · cases h

theorem parseExtracted_shape (o : Option (List Char)) :
    parseExtracted o = CellValue.missing ∨
      ∃ q, parseExtracted o = CellValue.vnum q ∧ 0 ≤ q := by
  rcases o with - | m
  · exact Or.inl rfl
  · rcases hq : toNumeric m with - | q
    · left
      simp [parseExtracted, hq]
    · right
      exact ⟨q, by simp [parseExtracted, hq], toNumeric_nonneg m q hq⟩

theorem cleanRevenue_shape (s : String) :
    cleanRevenue s = CellValue.missing ∨
      ∃ q, cleanRevenue s = CellValue.vnum q ∧ 0 ≤ q := by
  unfold cleanRevenue
  exact parseExtracted_shape _

theorem cleanEmployee_shape (s : String) :
    cleanEmployee s = CellValue.missing ∨
      ∃ q, cleanEmployee s = CellValue.vnum q ∧ 0 ≤ q := by
  unfold cleanEmployee
  exact parseExtracted_shape _

theorem dropWhile_eq_self_of (p : Char → Bool) (l : List Char)
    (h : ∀ c ∈ l, p c = false) : l.dropWhile p = l := by
  cases l with
  | nil => rfl
  | cons c cs =>
    rw [List.dropWhile_cons]
    simp [h c (List.mem_cons_self c cs)]

theorem pyStripList_eq_self (l : List Char) (h : ∀ c ∈ l, isPySpace c = false) :
    pyStripList l = l := by
  unfold pyStripList
  rw [dropWhile_eq_self_of _ _ h]
  rw [dropWhile_eq_self_of _ _ (fun c hc => h c (List.mem_reverse.mp hc))]
  exact List.reverse_reverse l

theorem collapseWSAux_eq_self : ∀ l : List Char,
    (∀ c ∈ l, isPySpace c = false) → ∀ b, collapseWSAux b l = l := by
  intro l
  induction l with
  | nil => intro _ b; rfl
  | cons c cs ih =>
    intro h b
    unfold collapseWSAux
    rw [h c (List.mem_cons_self c cs)]
    simp only [Bool.false_eq_true, if_false]
    rw [ih (fun d hd => h d (List.mem_cons_of_mem c hd)) false]

/-- Claim C1: for every document on which the pipeline succeeds, every row of
the emitted record set has exactly as many cells as there are headers, keyed
positionally by the header sequence, and the emitted rows are exactly the
cleaned data rows whose cell count equals the header count, so a row with a
mismatched cleaned cell count is absent entirely. -/
theorem claim_C1 (doc : Document) (df : DataFrame)
    (h : scrape_companies_data doc = Except.ok df) :
    (∀ r ∈ df.rows, r.length = df.headers.length) ∧
    ∃ t ts hr rest, matchingTables doc = t :: ts ∧ t.trs = hr :: rest ∧
      df.headers = extractHeaders hr ∧
      df.rows = ((rest.map extractRow).filter
        (fun r => r.length == df.headers.length)).map (coerceRow df.headers) := by
  unfold scrape_companies_data at h
  rcases hM : matchingTables doc with - | ⟨t, ts⟩
  · rw [hM] at h
    cases h
  · rw [hM] at h
    simp only [] at h
    rcases hT : t.trs with - | ⟨headerRow, dataTrs⟩
    · rw [hT] at h
      cases h
    · rw [hT] at h
      simp only [] at h
      injection h with h
      subst h
      constructor
      · intro r hrow
        simp only [extractRows, List.mem_map, List.mem_filter] at hrow
        obtain ⟨r₀, ⟨-, hlen⟩, rfl⟩ := hrow
        simp only [beq_iff_eq] at hlen
        simp only [coerceRow, List.length_zipWith]
        omega
      · exact ⟨t, ts, headerRow, dataTrs, rfl, hT, rfl, rfl⟩

theorem claim_C1_witness :
    (∀ r ∈ (⟨["Rank", "Revenue (USD millions)"],
        [[CellValue.vstr "1", CellValue.vnum 500000]]⟩ : DataFrame).rows,
      r.length = (⟨["Rank", "Revenue (USD millions)"],
        [[CellValue.vstr "1", CellValue.vnum 500000]]⟩ : DataFrame).headers.length) ∧
    ∃ t ts hr rest,
      matchingTables [⟨true, [[⟨true, "Rank"⟩, ⟨true, "Revenue (USD millions)"⟩],
        [⟨false, "1"⟩, ⟨false, "$500,000[2]"⟩], [⟨false, "7"⟩]]⟩] = t :: ts ∧
      t.trs = hr :: rest ∧
      (⟨["Rank", "Revenue (USD millions)"],
        [[CellValue.vstr "1", CellValue.vnum 500000]]⟩ : DataFrame).headers
        = extractHeaders hr ∧
      (⟨["Rank", "Revenue (USD millions)"],
        [[CellValue.vstr "1", CellValue.vnum 500000]]⟩ : DataFrame).rows
        = ((rest.map extractRow).filter
            (fun r => r.length == (⟨["Rank", "Revenue (USD millions)"],
              [[CellValue.vstr "1", CellValue.vnum 500000]]⟩ : DataFrame).headers.length)).map
          (coerceRow (⟨["Rank", "Revenue (USD millions)"],
            [[CellValue.vstr "1", CellValue.vnum 500000]]⟩ : DataFrame).headers) :=
  claim_C1 [⟨true, [[⟨true, "Rank"⟩, ⟨true, "Revenue (USD millions)"⟩],
    [⟨false, "1"⟩, ⟨false, "$500,000[2]"⟩], [⟨false, "7"⟩]]⟩]
    ⟨["Rank", "Revenue (USD millions)"], [[CellValue.vstr "1", CellValue.vnum 500000]]⟩
    (by decide)

/-- Claim C2: in a column whose header contains revenue or usd, the cell
text dollar sign one two comma three four five coerces to the number 12345;
in a column whose header contains employee but neither revenue nor usd, the
cell text one comma zero zero zero coerces to 1000; and the digitless cell
N slash A coerces to the missing marker in either kind of column. -/
theorem claim_C2 (col₁ col₂ : String)
    (h₁ : isRevenueCol col₁ = true)
    (h₂r : isRevenueCol col₂ = false) (h₂e : isEmployeeCol col₂ = true) :
    coerceCell col₁ "$12,345" = CellValue.vnum 12345 ∧
    coerceCell col₂ "1,000" = CellValue.vnum 1000 ∧
    coerceCell col₁ "N/A" = CellValue.missing ∧
    coerceCell col₂ "N/A" = CellValue.missing := by
  have hc₁ : ∀ t, coerceCell col₁ t = cleanRevenue t := by
    intro t
    unfold coerceCell
    rw [h₁]
    simp
  have hc₂ : ∀ t, coerceCell col₂ t = cleanEmployee t := by
    intro t
    unfold coerceCell
    rw [h₂r, h₂e]
    simp
  refine ⟨?_, ?_, ?_, ?_⟩
  · rw [hc₁]
    decide
  · rw [hc₂]
    decide
  · rw [hc₁]
    decide
  · rw [hc₂]
    decide

theorem claim_C2_witness :
    coerceCell "Revenue (USD millions)" "$12,345" = CellValue.vnum 12345 ∧
    coerceCell "Employees" "1,000" = CellValue.vnum 1000 ∧
    coerceCell "Revenue (USD millions)" "N/A" = CellValue.missing ∧
    coerceCell "Employees" "N/A" = CellValue.missing :=
  claim_C2 "Revenue (USD millions)" "Employees" (by decide) (by decide) (by decide)

/-- Claim C3: for every document in which no table is tagged wikitable
sortable, the pipeline yields the NotFoundError outcome, hence no record
set. -/
theorem claim_C3 (doc : Document) (h : matchingTables doc = []) :
    scrape_companies_data doc = Except.error ScrapeError.NotFoundError := by
  unfold scrape_companies_data
  rw [h]

theorem claim_C3_witness :
    scrape_companies_data [⟨false, [[⟨true, "Rank"⟩], [⟨false, "1"⟩]]⟩]
      = Except.error ScrapeError.NotFoundError :=
  claim_C3 [⟨false, [[⟨true, "Rank"⟩], [⟨false, "1"⟩]]⟩] (by decide)

/-- Claim C4: numeric coercion never raises: for every cell text in a
revenue or employee column the coercion yields either the missing marker or
a parsed number, with no other outcome. -/
theorem claim_C4 (col s : String)
    (hcol : isRevenueCol col = true ∨ isEmployeeCol col = true) :
    coerceCell col s = CellValue.missing ∨
      ∃ q, coerceCell col s = CellValue.vnum q := by
  unfold coerceCell
  split
  · rcases cleanRevenue_shape s with hm | ⟨q, hq, -⟩
    · exact Or.inl hm
    · exact Or.inr ⟨q, hq⟩
  · split
    · rcases cleanEmployee_shape s with hm | ⟨q, hq, -⟩
      · exact Or.inl hm
      · exact Or.inr ⟨q, hq⟩
    · next hnr hne =>
      rcases hcol with h | h
      · exact absurd h (by simpa using hnr)
      · exact absurd h (by simpa using hne)

theorem claim_C4_witness :
    coerceCell "Employees" "no digits at all" = CellValue.missing ∨
      ∃ q, coerceCell "Employees" "no digits at all" = CellValue.vnum q :=
  claim_C4 "Employees" "no digits at all" (Or.inr (by decide))

/-- Claim C5: citation markers of the form bracket, digits, bracket are
removed from every data cell during row extraction: extraction applies the
citation-stripping pass to each cell, the cell text one two three bracket
four bracket becomes one two three, and a document holding that cell emits
it without the marker. -/
theorem claim_C5 :
    (∀ tr : List TCell, extractRow tr
      = tr.map (fun c => stripCitations (collapseWS (pyStrip c.text)))) ∧
    processCellText "123[4]" = "123" ∧
    scrape_companies_data [⟨true, [[⟨true, "Name"⟩], [⟨false, "123[4]"⟩]]⟩]
      = Except.ok ⟨["Name"], [[CellValue.vstr "123"]]⟩ :=
  ⟨fun _ => rfl, by decide, by decide⟩

/-- Claim C6: the pipeline is deterministic and order-preserving: two runs
on the identical document yield equal record sets, their rows in the same
order. -/
theorem claim_C6 (doc : Document) (df₁ df₂ : DataFrame)
    (h₁ : scrape_companies_data doc = Except.ok df₁)
    (h₂ : scrape_companies_data doc = Except.ok df₂) :
    df₁ = df₂ ∧ df₁.rows = df₂.rows := by
  rw [h₁] at h₂
  injection h₂ with h
  exact ⟨h, by rw [h]⟩

theorem claim_C6_witness :
    (⟨["Industry"], [[CellValue.vstr "Retail"]]⟩ : DataFrame)
        = ⟨["Industry"], [[CellValue.vstr "Retail"]]⟩ ∧
    (⟨["Industry"], [[CellValue.vstr "Retail"]]⟩ : DataFrame).rows
        = (⟨["Industry"], [[CellValue.vstr "Retail"]]⟩ : DataFrame).rows :=
  claim_C6 [⟨true, [[⟨true, "Industry"⟩], [⟨false, "Retail"⟩]]⟩]
    ⟨["Industry"], [[CellValue.vstr "Retail"]]⟩
    ⟨["Industry"], [[CellValue.vstr "Retail"]]⟩
    (by decide) (by decide)

/-- Claim C7: the minimum-revenue filter retains exactly the rows whose
value at the revenue column passes the at-least-threshold comparison, in
order; instantiated below on rows of revenue 100 and 5000 with threshold
1000, keeping only the 5000 row. -/
theorem claim_C7 (df : DataFrame) (minRev : ℚ) (j : Nat)
    (h : df.headers.findIdx? (fun s => s == revenueColName) = some j) :
    (filterMinRevenue df minRev).rows = df.rows.filter (rowPassesMin j minRev) := by
  unfold filterMinRevenue
  rw [h]

theorem claim_C7_witness :
    (filterMinRevenue ⟨[revenueColName],
        [[CellValue.vnum 100], [CellValue.vnum 5000]]⟩ 1000).rows
      = [[CellValue.vnum 5000]] := by
  rw [claim_C7 ⟨[revenueColName], [[CellValue.vnum 100], [CellValue.vnum 5000]]⟩
    1000 0 (by decide)]
  decide

/-- Claim C8: a coerced value in a revenue or employee column is never a
negative number: whenever the coercion yields a number, that number is
nonnegative. -/
theorem claim_C8 (col s : String) (q : ℚ)
    (hcol : isRevenueCol col = true ∨ isEmployeeCol col = true)
    (hv : coerceCell col s = CellValue.vnum q) : 0 ≤ q := by
  unfold coerceCell at hv
  split at hv
  · rcases cleanRevenue_shape s with hm | ⟨q₀, hq₀, hge⟩
    · rw [hm] at hv
      cases hv
    · rw [hq₀] at hv
      injection hv with he
      subst he
      exact hge
  · split at hv
    · rcases cleanEmployee_shape s with hm | ⟨q₀, hq₀, hge⟩
      · rw [hm] at hv
        cases hv
      · rw [hq₀] at hv
        injection hv with he
        subst he
        exact hge
    · cases hv

theorem claim_C8_witness :
    isRevenueCol "Revenue (USD millions)" = true ∧
    coerceCell "Revenue (USD millions)" "$12,346" = CellValue.vnum 12346 ∧
    (0 : ℚ) ≤ 12346 :=
  ⟨by decide, by decide,
    claim_C8 "Revenue (USD millions)" "$12,346" 12346 (Or.inl (by decide)) (by decide)⟩

theorem toNumeric_one_five : toNumeric ['1', '.', '5'] = some ((3 : ℚ) / 2) := by
  have hd : List.dropWhile Char.isDigit ['1', '.', '5'] = ['.', '5'] := by decide
  have ht : List.takeWhile Char.isDigit ['1', '.', '5'] = ['1'] := by decide
  have h1 : digitsToNat ['1'] = 1 := by decide
  have h5 : digitsToNat ['5'] = 5 := by decide
  have ha : (['5'] : List Char).all Char.isDigit = true := by decide
  unfold toNumeric
  rw [hd, ht]
  simp only [ha, if_true, h1, h5]
  rw [if_neg (by simp)]
  norm_num

theorem cleanRevenue_one_five : cleanRevenue "1.5" = CellValue.vnum ((3 : ℚ) / 2) := by
  have hx : extractRevenueMatch
      ((("1.5".data.filter (fun c => !(c == ','))).filter
        (fun c => !(c == '$'))).filter (fun c => !(c == ' '))) = some ['1', '.', '5'] := by
    decide
  unfold cleanRevenue
  rw [hx]
  simp only [parseExtracted, toNumeric_one_five]

/-- Claim C9: the revenue rule takes precedence: a column whose header
matches both the revenue test and the employee test is coerced by the
revenue rule alone, so its cells admit a decimal point, as the cell text
one dot five shows against the digits-only employee rule. -/
theorem claim_C9 (col s : String)
    (hr : isRevenueCol col = true) (he : isEmployeeCol col = true) :
    coerceCell col s = cleanRevenue s ∧
    coerceCell col "1.5" = CellValue.vnum ((3 : ℚ) / 2) ∧
    cleanEmployee "1.5" = CellValue.vnum 1 := by
  have hc : ∀ t : String, coerceCell col t = cleanRevenue t := by
    intro t
    unfold coerceCell
    rw [hr]
    simp
  refine ⟨hc s, ?_, by decide⟩
  rw [hc "1.5", cleanRevenue_one_five]

theorem claim_C9_witness :
    coerceCell "Revenue per employee" "1.5" = cleanRevenue "1.5" ∧
    coerceCell "Revenue per employee" "1.5" = CellValue.vnum ((3 : ℚ) / 2) ∧
    cleanEmployee "1.5" = CellValue.vnum 1 :=
  claim_C9 "Revenue per employee" "1.5" (by decide) (by decide)

/-- Claim C10: citation stripping applies to data cells only: header
cleaning is exactly whitespace strip and collapse, so a header all of whose
characters are non-whitespace, such as one carrying a citation marker, comes
through unchanged, while the same text as a data cell loses the marker. -/
theorem claim_C10 :
    (∀ s : String, processHeaderText s = collapseWS (pyStrip s)) ∧
    (∀ s : String, (∀ c ∈ s.data, isPySpace c = false) → processHeaderText s = s) ∧
    processCellText "Rank[1]" = "Rank" := by
  have h1 : ∀ s : String, processHeaderText s = collapseWS (pyStrip s) := by
    intro s
    unfold processHeaderText replaceStr
    rw [replaceList_self]
  refine ⟨h1, ?_, by decide⟩
  intro s hs
  rw [h1 s]
  have hstrip : pyStrip s = s := by
    unfold pyStrip
    rw [pyStripList_eq_self s.data hs]
  rw [hstrip]
  unfold collapseWS
  rw [collapseWSAux_eq_self s.data hs false]

theorem claim_C10_witness :
    processHeaderText "Rank[1]" = "Rank[1]" :=
  claim_C10.2.1 "Rank[1]" (by decide)

end WikiScrape
